import Mathlib

/-!
Shallow embedding of the IoT-device core of the EdgeComputionIot repository
(src/iot_device.py) and verification of its specification claims.

Modelling conventions:
- Python float arithmetic is modelled by exact real arithmetic over ℝ.
- The mutation performed by a method is modelled by returning the updated
  device (and task) together with the method result.
- Randomness (random.random, random.choice, random.uniform) is passed in as
  explicit parameters, so each operation is a function of the drawn values.
- The Task class is imported from task.py, which is an external collaborator
  of this module; the fields this module reads and writes are embedded.
- float("inf") together with the initially absent best node in the node
  selection loop is modelled by an Option accumulator: the accumulator is
  none exactly while best_node is None and best_score is infinite, and every
  real score compares strictly below that infinity.
-/

namespace EdgeIoT

noncomputable section

/-- Network parameter bundle for the wireless technology of a device,
config["network"]["technologies"][wireless_tech] in iot_device.py. -/
structure NetworkParams where
  bandwidth_mbps : ℝ
  latency_ms : ℝ
  reliability : ℝ
  energy_consumption : ℝ

/-- The offloading thresholds and utility weights read from
config["offloading_policy"] in iot_device.py. -/
structure OffloadingPolicy where
  threshold_battery_level : ℝ
  threshold_task_size : ℝ
  threshold_network_quality : ℝ
  weight_energy : ℝ
  weight_latency : ℝ
  weight_cost : ℝ

/-- The fields of the external Task object that iot_device.py reads or
writes (task.py itself is a collaborator of this module). -/
structure Task where
  task_id : String
  task_type : String
  mips_required : ℝ
  input_size : ℝ
  status : String
  start_time : ℝ
  completion_time : ℝ
  executed_on : String

/-- The fields of the external EdgeNode object that iot_device.py reads:
position, processing rate, unit cost, and the get_utilization() snapshot. -/
structure EdgeNode where
  location : ℝ × ℝ
  mips : ℝ
  cost_per_mips : ℝ
  utilization : ℝ

/-- Equality of edge-node snapshots, used only to state first-of-minimal
positions through List.indexOf. -/
instance : DecidableEq EdgeNode := Classical.decEq EdgeNode

/-- State of IoTDevice from iot_device.py. -/
structure IoTDevice where
  device_id : ℕ
  device_type : String
  mips : ℝ
  ram : ℝ
  battery_capacity : ℝ
  current_battery : ℝ
  battery_consumption_rate : ℝ
  task_generation_rate : ℝ
  wireless_tech : String
  mobility : Bool
  location : ℝ × ℝ
  connected_edge_node : Option ℕ
  network_params : NetworkParams
  offloading_policy : OffloadingPolicy
  tasks_generated : ℕ
  tasks_offloaded : ℕ
  tasks_processed_locally : ℕ
  energy_consumed : ℝ

/-- IoTDevice.update_battery (lines 75-85): subtract consumption, add the
same amount to the cumulative counter, clamp at 0 returning False, else
return True. -/
def update_battery (d : IoTDevice) (time_elapsed : ℝ) : IoTDevice × Bool :=
  let consumption := d.battery_consumption_rate * time_elapsed
  let d1 : IoTDevice :=
    { d with current_battery := d.current_battery - consumption,
             energy_consumed := d.energy_consumed + consumption }
  if d1.current_battery ≤ 0 then ({ d1 with current_battery := 0 }, false)
  else (d1, true)

/-- Task-type tier selection inside IoTDevice.generate_task (lines 102-108);
pick is the index drawn by random.choice. -/
def task_type_for (mips : ℝ) (pick : ℕ) : String :=
  if mips < 1000 then "lightweight"
  else if mips < 3000 then (["lightweight", "medium"].getD (pick % 2) "lightweight")
  else (["lightweight", "medium", "intensive"].getD (pick % 3) "lightweight")

/-- IoTDevice.generate_task (lines 87-115). rand_sample is the
random.random() draw, pick the random.choice index, and mk stands for the
external Task constructor from task.py. -/
def generate_task (d : IoTDevice) (rand_sample : ℝ) (pick : ℕ)
    (mk : String → String → ℕ → ℝ → Task) (simulation_time : ℝ) :
    IoTDevice × Option Task :=
  if rand_sample ≤ d.task_generation_rate then
    let task_id := toString d.device_id ++ "_" ++ toString d.tasks_generated
    ({ d with tasks_generated := d.tasks_generated + 1 },
      some (mk task_id (task_type_for d.mips pick) d.device_id simulation_time))
  else (d, none)

/-- The network-quality expression of rule 3 in should_offload_task
(lines 139-140): reliability times bandwidth normalised against 100. -/
def network_quality (d : IoTDevice) : ℝ :=
  d.network_params.reliability * (d.network_params.bandwidth_mbps / 100)

/-- The technology-specific distance weight dictionary with default 1.0
inside _select_best_edge_node (lines 204-209). -/
def distance_weight (tech : String) : ℝ :=
  if tech = "WiFi" then 1.0
  else if tech = "BLE" then 1.5
  else if tech = "LTE" then 0.7
  else if tech = "FiveG" then 0.5
  else 1.0

/-- The score of one candidate node in _select_best_edge_node
(lines 196-211): Euclidean distance times the technology weight plus
utilization times 100; lower is better. -/
def node_score (d : IoTDevice) (node : EdgeNode) : ℝ :=
  Real.sqrt ((d.location.1 - node.location.1) ^ 2 +
      (d.location.2 - node.location.2) ^ 2) * distance_weight d.wireless_tech +
    node.utilization * 100

/-- The loop of _select_best_edge_node (lines 191-216). The accumulator is
none while best_node is None and best_score is float("inf"); a candidate
replaces the incumbent exactly when its score is strictly smaller. -/
def select_best_go (d : IoTDevice) :
    List EdgeNode → Option (EdgeNode × ℝ) → Option (EdgeNode × ℝ)
  | [], best => best
  | node :: rest, best =>
    match best with
    | none => select_best_go d rest (some (node, node_score d node))
    | some (bn, bs) =>
      if node_score d node < bs then
        select_best_go d rest (some (node, node_score d node))
      else select_best_go d rest (some (bn, bs))

/-- IoTDevice._select_best_edge_node (lines 178-217). -/
def select_best_edge_node (d : IoTDevice) (edge_nodes : List EdgeNode) :
    Option EdgeNode :=
  (select_best_go d edge_nodes none).map Prod.fst

/-- Local completion-time estimate in should_offload_task (line 145). -/
def local_completion_time (d : IoTDevice) (task : Task) : ℝ :=
  task.mips_required / d.mips

/-- Transfer time in should_offload_task (line 153), Mbps converted to
bytes per second. -/
def transfer_time (d : IoTDevice) (task : Task) : ℝ :=
  task.input_size / (d.network_params.bandwidth_mbps * 125000)

/-- Edge completion-time estimate in should_offload_task (lines 152-155). -/
def edge_completion_time (d : IoTDevice) (task : Task) (node : EdgeNode) : ℝ :=
  d.network_params.latency_ms / 1000 + transfer_time d task +
    task.mips_required / node.mips

/-- Local energy estimate in should_offload_task (line 158): doubled
consumption rate over the local execution time. -/
def local_energy (d : IoTDevice) (task : Task) : ℝ :=
  task.mips_required / d.mips * d.battery_consumption_rate * 2

/-- Edge energy estimate in should_offload_task (line 159). -/
def edge_energy (d : IoTDevice) (task : Task) : ℝ :=
  transfer_time d task * d.network_params.energy_consumption

/-- Weighted local utility in should_offload_task (lines 162-165). -/
def local_utility (d : IoTDevice) (task : Task) : ℝ :=
  d.offloading_policy.weight_energy * local_energy d task +
    d.offloading_policy.weight_latency * local_completion_time d task

/-- Weighted edge utility in should_offload_task (lines 167-171). -/
def edge_utility (d : IoTDevice) (task : Task) (node : EdgeNode) : ℝ :=
  d.offloading_policy.weight_energy * edge_energy d task +
    d.offloading_policy.weight_latency * edge_completion_time d task node +
    d.offloading_policy.weight_cost * (task.mips_required * node.cost_per_mips)

/-- IoTDevice.should_offload_task (lines 117-176). The nested Python if of
rule 3 (lines 137-142) falls through in both failure cases, so it is
flattened into one conjunction; reaching the final Python return False is
the none branch of the match. -/
def should_offload_task (d : IoTDevice) (task : Task)
    (edge_nodes : List EdgeNode) : Bool :=
  if d.current_battery / d.battery_capacity <
      d.offloading_policy.threshold_battery_level then true
  else if task.mips_required > d.mips then true
  else if task.input_size > d.offloading_policy.threshold_task_size ∧
      network_quality d > d.offloading_policy.threshold_network_quality then true
  else
    match select_best_edge_node d edge_nodes with
    | some best => if edge_utility d task best < local_utility d task then true
        else false
    | none => false

/-- IoTDevice.process_task_locally (lines 219-250): stamp the task, count
the local execution, and charge the doubled consumption rate over the
execution time with no clamp on the battery level. -/
def process_task_locally (d : IoTDevice) (task : Task) (current_time : ℝ) :
    IoTDevice × Task × ℝ :=
  let execution_time := task.mips_required / d.mips
  let task1 : Task :=
    { task with start_time := current_time,
                completion_time := current_time + execution_time,
                executed_on := "device_" ++ toString d.device_id,
                status := "processing" }
  let energy_used := execution_time * d.battery_consumption_rate * 2
  let d1 : IoTDevice :=
    { d with tasks_processed_locally := d.tasks_processed_locally + 1,
             current_battery := d.current_battery - energy_used,
             energy_consumed := d.energy_consumed + energy_used }
  (d1, task1, task1.completion_time)

/-- IoTDevice.update_location (lines 252-274). The non-mobile branch
returns immediately with the device unchanged. The mobile branch evaluates
dx = distance * math.cos(angle), but iot_device.py never imports math, so
that line raises NameError before any field is written; the exception is
modelled by the error result. angle is the random.uniform direction draw. -/
def update_location (d : IoTDevice) (time_elapsed : ℝ) (angle : ℝ) :
    Except String IoTDevice :=
  if d.mobility = false then Except.ok d
  else Except.error "NameError: math is not defined"

/-- Concrete network parameters used by the concrete devices below. -/
def npW : NetworkParams :=
  { bandwidth_mbps := 100, latency_ms := 10, reliability := 0.9,
    energy_consumption := 0.5 }

/-- Concrete offloading policy used by the concrete devices below. -/
def polW : OffloadingPolicy :=
  { threshold_battery_level := 0.2, threshold_task_size := 500000,
    threshold_network_quality := 0.5, weight_energy := 1, weight_latency := 1,
    weight_cost := 1 }

/-- A healthy stationary smartphone-class device. -/
def devMid : IoTDevice :=
  { device_id := 2, device_type := "smartphone", mips := 5000, ram := 2048,
    battery_capacity := 1000, current_battery := 900,
    battery_consumption_rate := 1, task_generation_rate := 0.3,
    wireless_tech := "WiFi", mobility := false, location := (0, 0),
    connected_edge_node := none, network_params := npW,
    offloading_policy := polW, tasks_generated := 0, tasks_offloaded := 0,
    tasks_processed_locally := 0, energy_consumed := 0 }

/-- A device whose battery fraction 100/1000 is below the 0.2 threshold. -/
def devLow : IoTDevice :=
  { devMid with device_id := 3, current_battery := 100 }

/-- A mobile device, used against update_location. -/
def devMobile : IoTDevice :=
  { devMid with device_id := 4, mobility := true }

/-- A weak device (1 MIPS) whose battery a single local task can drain past
zero. -/
def devDrain : IoTDevice :=
  { devMid with
    device_id := 5, mips := 1, battery_capacity := 100,
    current_battery := 100 }

/-- A device whose battery capacity 1 is below one step of consumption. -/
def devTiny : IoTDevice :=
  { devMid with
    device_id := 6, battery_capacity := 1, current_battery := 1,
    battery_consumption_rate := 2 }

/-- A small concrete task. -/
def taskA : Task :=
  { task_id := "2_0", task_type := "lightweight", mips_required := 1000,
    input_size := 100, status := "created", start_time := 0,
    completion_time := 0, executed_on := "" }

/-- A task whose compute requirement exceeds the 1-MIPS device devDrain. -/
def taskHeavy : Task :=
  { taskA with task_id := "5_0", mips_required := 100, input_size := 0 }

/-- A task whose compute requirement exceeds even devMid. -/
def taskHuge : Task :=
  { taskA with task_id := "2_1", mips_required := 6000 }

/-- A close idle edge node. -/
def nodeA : EdgeNode :=
  { location := (3, 4), mips := 10000, cost_per_mips := 0.001,
    utilization := 0 }

/-- A farther, half-loaded edge node. -/
def nodeB : EdgeNode :=
  { location := (30, 40), mips := 10000, cost_per_mips := 0.001,
    utilization := 0.5 }

/-- Claim C1: whenever the battery fraction is strictly below the
configured threshold (with a positive capacity), should_offload_task
returns true for every task and every candidate-node list, including the
empty list. -/
theorem c1_low_battery_forces_offload (d : IoTDevice) (task : Task)
    (edge_nodes : List EdgeNode) (hcap : 0 < d.battery_capacity)
    (hlow : d.current_battery / d.battery_capacity <
      d.offloading_policy.threshold_battery_level) :
    should_offload_task d task edge_nodes = true := by
  unfold should_offload_task
  rw [if_pos hlow]

/-- Witness for C1: the low-battery device devLow offloads taskA even with
no candidate node. -/
theorem c1_witness : should_offload_task devLow taskA [] = true :=
  c1_low_battery_forces_offload devLow taskA []
    (by norm_num [devLow, devMid]) (by norm_num [devLow, devMid, polW])

/-- Claim C6: whenever the task requires more MIPS than the device has,
should_offload_task returns true, for every candidate-node list. -/
theorem c6_heavy_task_forces_offload (d : IoTDevice) (task : Task)
    (edge_nodes : List EdgeNode) (hcap : 0 < d.battery_capacity)
    (hheavy : d.mips < task.mips_required) :
    should_offload_task d task edge_nodes = true := by
  unfold should_offload_task
  by_cases hb : d.current_battery / d.battery_capacity <
      d.offloading_policy.threshold_battery_level
  · rw [if_pos hb]
  · rw [if_neg hb, if_pos hheavy]

/-- Witness for C6: devMid offloads taskHuge (6000 MIPS required against
5000 MIPS capability) with no candidate node. -/
theorem c6_witness : should_offload_task devMid taskHuge [] = true :=
  c6_heavy_task_forces_offload devMid taskHuge []
    (by norm_num [devMid]) (by norm_num [devMid, taskHuge, taskA])

/-- Claim C7: update_battery subtracts baseRate times elapsedTime from the
battery, increases energy_consumed by the same amount, clamps to exactly 0
and returns false when the resulting level is at or below 0, and otherwise
returns true leaving the subtracted level in place. The operation has no
activity-multiplier argument, so the multiplier of the charge contract is
fixed at 1 here. -/
theorem c7_update_battery_contract (d : IoTDevice) (t : ℝ) :
    (update_battery d t).1.energy_consumed =
      d.energy_consumed + d.battery_consumption_rate * t ∧
    ((update_battery d t).2 = false ↔
      d.current_battery - d.battery_consumption_rate * t ≤ 0) ∧
    ((update_battery d t).2 = false →
      (update_battery d t).1.current_battery = 0) ∧
    ((update_battery d t).2 = true →
      (update_battery d t).1.current_battery =
        d.current_battery - d.battery_consumption_rate * t) := by
  unfold update_battery
  by_cases h : d.current_battery - d.battery_consumption_rate * t ≤ 0
  · simp [h]
  · simp [h]

/-- Witness for C7: draining devDrain for 200 time units clamps its
battery to exactly 0. -/
theorem c7_witness : (update_battery devDrain 200).1.current_battery = 0 :=
  (c7_update_battery_contract devDrain 200).2.2.1
    ((c7_update_battery_contract devDrain 200).2.1.mpr
      (by norm_num [devDrain, devMid]))

/-- Claim C10: even when the remaining battery is smaller than the
consumption baseRate times elapsedTime, update_battery adds the full
consumption to energy_consumed, not the energy actually drained before the
clamp; consequently the cumulative counter can exceed battery_capacity, as
the one-call run on devTiny shows. -/
theorem c10_energy_counter_overshoot (d : IoTDevice) (t : ℝ)
    (hlow : d.current_battery < d.battery_consumption_rate * t) :
    (update_battery d t).1.energy_consumed =
      d.energy_consumed + d.battery_consumption_rate * t ∧
    (update_battery devTiny 1).1.energy_consumed >
      devTiny.battery_capacity := by
  constructor
  · unfold update_battery
    by_cases h : d.current_battery - d.battery_consumption_rate * t ≤ 0
    · simp [h]
    · simp [h]
  · norm_num [update_battery, devTiny, devMid]

/-- Witness for C10: devTiny drained for 1 time unit books 2 units of
consumed energy against a capacity of 1. -/
theorem c10_witness :
    (update_battery devTiny 1).1.energy_consumed =
      devTiny.energy_consumed + devTiny.battery_consumption_rate * 1 ∧
    (update_battery devTiny 1).1.energy_consumed >
      devTiny.battery_capacity :=
  c10_energy_counter_overshoot devTiny 1 (by norm_num [devTiny, devMid])

/-- Claim C5: for a device with positive MIPS, process_task_locally stamps
the task with start time currentTime, completion time currentTime plus
mips_required/mips (which it also returns), status processing, and this
device as executor, increments tasks_processed_locally by exactly 1, and
increases energy_consumed by exactly (mips_required/mips) times the
consumption rate times 2. -/
theorem c5_process_task_locally_contract (d : IoTDevice) (task : Task)
    (ct : ℝ) (hmips : 0 < d.mips) :
    (process_task_locally d task ct).2.1.start_time = ct ∧
    (process_task_locally d task ct).2.1.completion_time =
      ct + task.mips_required / d.mips ∧
    (process_task_locally d task ct).2.2 =
      (process_task_locally d task ct).2.1.completion_time ∧
    (process_task_locally d task ct).2.1.status = "processing" ∧
    (process_task_locally d task ct).2.1.executed_on =
      "device_" ++ toString d.device_id ∧
    (process_task_locally d task ct).1.tasks_processed_locally =
      d.tasks_processed_locally + 1 ∧
    (process_task_locally d task ct).1.energy_consumed =
      d.energy_consumed + task.mips_required / d.mips *
        d.battery_consumption_rate * 2 := by
  refine ⟨rfl, rfl, rfl, rfl, rfl, rfl, rfl⟩

/-- Witness for C5: devMid processing taskA at time 0 finishes at 1000/5000
and books the doubled energy. -/
theorem c5_witness :
    (process_task_locally devMid taskA 0).2.1.start_time = 0 ∧
    (process_task_locally devMid taskA 0).2.1.completion_time =
      0 + taskA.mips_required / devMid.mips ∧
    (process_task_locally devMid taskA 0).2.2 =
      (process_task_locally devMid taskA 0).2.1.completion_time ∧
    (process_task_locally devMid taskA 0).2.1.status = "processing" ∧
    (process_task_locally devMid taskA 0).2.1.executed_on =
      "device_" ++ toString devMid.device_id ∧
    (process_task_locally devMid taskA 0).1.tasks_processed_locally =
      devMid.tasks_processed_locally + 1 ∧
    (process_task_locally devMid taskA 0).1.energy_consumed =
      devMid.energy_consumed + taskA.mips_required / devMid.mips *
        devMid.battery_consumption_rate * 2 :=
  c5_process_task_locally_contract devMid taskA 0 (by norm_num [devMid])

/-- The selection loop with an incumbent whose cached score is honest is
the Mathlib argmin fold from that incumbent: a candidate replaces the
incumbent in both exactly when its score is strictly smaller. -/
theorem select_best_go_map_fst (d : IoTDevice) :
    ∀ (l : List EdgeNode) (b : EdgeNode),
      (select_best_go d l (some (b, node_score d b))).map Prod.fst =
        List.foldl (List.argAux fun x y => node_score d x < node_score d y)
          (some b) l
  | [], _ => rfl
  | n :: rest, b => by
    by_cases h : node_score d n < node_score d b
    · show (if node_score d n < node_score d b then
          select_best_go d rest (some (n, node_score d n))
        else select_best_go d rest (some (b, node_score d b))).map Prod.fst = _
      rw [if_pos h]
      rw [select_best_go_map_fst d rest n]
      simp only [List.foldl_cons, List.argAux]
      rw [if_pos h]
    · show (if node_score d n < node_score d b then
          select_best_go d rest (some (n, node_score d n))
        else select_best_go d rest (some (b, node_score d b))).map Prod.fst = _
      rw [if_neg h]
      rw [select_best_go_map_fst d rest b]
      simp only [List.foldl_cons, List.argAux]
      rw [if_neg h]

/-- The selection loop of _select_best_edge_node computes the Mathlib
argmin of node_score over the candidate list. -/
theorem select_best_eq_argmin (d : IoTDevice) (l : List EdgeNode) :
    select_best_edge_node d l = l.argmin (node_score d) := by
  cases l with
  | nil => rfl
  | cons n rest =>
    show (select_best_go d rest (some (n, node_score d n))).map Prod.fst = _
    rw [select_best_go_map_fst d rest n]
    rfl

/-- Claim C4: _select_best_edge_node returns none on the empty list, always
returns a lone candidate, and on any non-empty list returns the first
candidate attaining the minimal score, the score being Euclidean distance
times the technology weight (WiFi 1.0, BLE 1.5, LTE 0.7, FiveG 0.5, any
other technology 1.0) plus utilization times 100. -/
theorem c4_select_first_minimal (d : IoTDevice) :
    distance_weight "WiFi" = 1 ∧ distance_weight "BLE" = 1.5 ∧
    distance_weight "LTE" = 0.7 ∧ distance_weight "FiveG" = 0.5 ∧
    (∀ s : String, s ≠ "WiFi" → s ≠ "BLE" → s ≠ "LTE" → s ≠ "FiveG" →
      distance_weight s = 1) ∧
    select_best_edge_node d [] = none ∧
    (∀ n : EdgeNode, select_best_edge_node d [n] = some n) ∧
    ∀ l : List EdgeNode, l ≠ [] → ∃ m,
      select_best_edge_node d l = some m ∧ m ∈ l ∧
      (∀ a ∈ l, node_score d m ≤ node_score d a) ∧
      (∀ a ∈ l, node_score d a ≤ node_score d m →
        l.indexOf m ≤ l.indexOf a) := by
  refine ⟨by simp [distance_weight] <;> norm_num,
    by simp [distance_weight] <;> norm_num,
    by simp [distance_weight] <;> norm_num,
    by simp [distance_weight] <;> norm_num,
    ?_, rfl, ?_, ?_⟩
  · intro s h1 h2 h3 h4
    simp [distance_weight, h1, h2, h3, h4] <;> norm_num
  · intro n
    rw [select_best_eq_argmin]
    exact List.argmin_singleton
  · intro l hl
    rw [select_best_eq_argmin]
    cases harg : l.argmin (node_score d) with
    | none => exact absurd (List.argmin_eq_none.mp harg) hl
    | some m =>
      obtain ⟨hmem, hmin, hfirst⟩ := List.argmin_eq_some_iff.mp harg
      exact ⟨m, rfl, hmem, hmin, fun a ha hle => hfirst a ha hle⟩

/-- Witness for C4: on the concrete pair nodeA, nodeB the loop returns the
first candidate nodeA, which attains the minimal score. -/
theorem c4_witness :
    ∃ m, select_best_edge_node devMid [nodeA, nodeB] = some m ∧
      m ∈ [nodeA, nodeB] ∧
      (∀ a ∈ [nodeA, nodeB], node_score devMid m ≤ node_score devMid a) ∧
      (∀ a ∈ [nodeA, nodeB],
        node_score devMid a ≤ node_score devMid m →
          [nodeA, nodeB].indexOf m ≤ [nodeA, nodeB].indexOf a) :=
  (c4_select_first_minimal devMid).2.2.2.2.2.2.2 [nodeA, nodeB] (by simp)

/-- Claim C3: when none of the three override rules fires (battery fraction
at or above threshold, task within device MIPS, and payload rule disabled
by size or network quality), should_offload_task returns false if no best
node exists, and otherwise offloads exactly when the weighted edge utility
is strictly below the weighted local utility, ties executing locally. -/
theorem c3_utility_comparison (d : IoTDevice) (task : Task)
    (edge_nodes : List EdgeNode) (hcap : 0 < d.battery_capacity)
    (hbat : d.offloading_policy.threshold_battery_level ≤
      d.current_battery / d.battery_capacity)
    (hmips : task.mips_required ≤ d.mips)
    (hpayload : task.input_size ≤ d.offloading_policy.threshold_task_size ∨
      network_quality d ≤ d.offloading_policy.threshold_network_quality) :
    (select_best_edge_node d edge_nodes = none →
      should_offload_task d task edge_nodes = false) ∧
    ∀ best, select_best_edge_node d edge_nodes = some best →
      (should_offload_task d task edge_nodes = true ↔
        edge_utility d task best < local_utility d task) := by
  have h1 : ¬ (d.current_battery / d.battery_capacity <
      d.offloading_policy.threshold_battery_level) := not_lt.mpr hbat
  have h2 : ¬ (task.mips_required > d.mips) := not_lt.mpr hmips
  have h3 : ¬ (task.input_size > d.offloading_policy.threshold_task_size ∧
      network_quality d > d.offloading_policy.threshold_network_quality) := by
    rcases hpayload with h | h
    · exact fun hc => absurd hc.1 (not_lt.mpr h)
    · exact fun hc => absurd hc.2 (not_lt.mpr h)
  unfold should_offload_task
  rw [if_neg h1, if_neg h2, if_neg h3]
  constructor
  · intro hnone
    rw [hnone]
  · intro best hbest
    rw [hbest]
    by_cases hu : edge_utility d task best < local_utility d task
    · simp [hu]
    · simp [hu]

/-- Witness for C3: devMid with taskA against the single candidate nodeA
satisfies every hypothesis of the utility-comparison characterisation. -/
theorem c3_witness :
    (select_best_edge_node devMid [nodeA] = none →
      should_offload_task devMid taskA [nodeA] = false) ∧
    ∀ best, select_best_edge_node devMid [nodeA] = some best →
      (should_offload_task devMid taskA [nodeA] = true ↔
        edge_utility devMid taskA best < local_utility devMid taskA) :=
  c3_utility_comparison devMid taskA [nodeA]
    (by norm_num [devMid]) (by norm_num [devMid, polW])
    (by norm_num [devMid, taskA]) (Or.inl (by norm_num [devMid, taskA, polW]))

/-- Claim C9: update_location leaves a non-mobile device unchanged, but for
every mobile device it raises instead of terminating normally, because the
mobile branch evaluates math.cos while iot_device.py never imports math. -/
theorem c9_update_location_raises (d : IoTDevice) (t angle : ℝ) :
    (d.mobility = false → update_location d t angle = Except.ok d) ∧
    (d.mobility = true → update_location d t angle =
      Except.error "NameError: math is not defined") := by
  unfold update_location
  constructor
  · intro h
    rw [if_pos h]
  · intro h
    rw [if_neg (by simp [h])]

/-- Witness for C9: the mobile device devMobile raises NameError on any
location update, while the stationary devMid is returned unchanged. -/
theorem c9_witness :
    update_location devMobile 1 0 =
      Except.error "NameError: math is not defined" ∧
    update_location devMid 1 0 = Except.ok devMid :=
  ⟨(c9_update_location_raises devMobile 1 0).2 rfl,
    (c9_update_location_raises devMid 1 0).1 rfl⟩

/-- Counterexample to claim C2 as stated: process_task_locally applies no
lower clamp, so a single local task on the 1-MIPS device devDrain drives
current_battery from 100 to -100, strictly below 0. -/
theorem c2_counterexample :
    ¬ (0 ≤ (process_task_locally devDrain taskHeavy 0).1.current_battery) := by
  show ¬ (0 ≤ devDrain.current_battery -
    taskHeavy.mips_required / devDrain.mips *
      devDrain.battery_consumption_rate * 2)
  norm_num [devDrain, devMid, taskHeavy, taskA]

/-- Claim C2 amended: update_battery keeps the battery inside
[0, battery_capacity] (for a non-negative consumption rate and elapsed time
and a level starting in range), generate_task and update_location never
change the battery level, and process_task_locally never raises it above
capacity; but process_task_locally performs no lower clamp, so it can drive
the level strictly below 0. -/
theorem c2_battery_bounds (d : IoTDevice) (t r simt ct angle : ℝ)
    (pick : ℕ) (mk : String → String → ℕ → ℝ → Task) (task : Task)
    (hrate : 0 ≤ d.battery_consumption_rate) (ht : 0 ≤ t)
    (hlo : 0 ≤ d.current_battery)
    (hhi : d.current_battery ≤ d.battery_capacity)
    (hreq : 0 ≤ task.mips_required) (hmips : 0 ≤ d.mips) :
    (0 ≤ (update_battery d t).1.current_battery ∧
      (update_battery d t).1.current_battery ≤ d.battery_capacity) ∧
    (generate_task d r pick mk simt).1.current_battery =
      d.current_battery ∧
    (∀ d2, update_location d t angle = Except.ok d2 →
      d2.current_battery = d.current_battery) ∧
    (process_task_locally d task ct).1.current_battery ≤
      d.battery_capacity := by
  have hcons : 0 ≤ d.battery_consumption_rate * t := mul_nonneg hrate ht
  refine ⟨?_, ?_, ?_, ?_⟩
  · unfold update_battery
    dsimp only
    split_ifs with h
    · dsimp only
      exact ⟨le_refl 0, by linarith⟩
    · push_neg at h
      dsimp only
      exact ⟨by linarith, by linarith⟩
  · unfold generate_task
    split_ifs with h
    · rfl
    · rfl
  · intro d2 h
    unfold update_location at h
    split_ifs at h
    · rw [← Except.ok.inj h]
  · show d.current_battery - task.mips_required / d.mips *
      d.battery_consumption_rate * 2 ≤ d.battery_capacity
    have h0 : 0 ≤ task.mips_required / d.mips *
        d.battery_consumption_rate * 2 := by positivity
    linarith

/-- Witness for the amended C2 on devMid with taskA and concrete draws. -/
theorem c2_witness :
    (0 ≤ (update_battery devMid 1).1.current_battery ∧
      (update_battery devMid 1).1.current_battery ≤
        devMid.battery_capacity) ∧
    (generate_task devMid 0.5 0 (fun _ _ _ _ => taskA) 0).1.current_battery =
      devMid.current_battery ∧
    (∀ d2, update_location devMid 1 0 = Except.ok d2 →
      d2.current_battery = devMid.current_battery) ∧
    (process_task_locally devMid taskA 0).1.current_battery ≤
      devMid.battery_capacity :=
  c2_battery_bounds devMid 1 0.5 0 0 0 0 (fun _ _ _ _ => taskA) taskA
    (by norm_num [devMid]) (by norm_num) (by norm_num [devMid])
    (by norm_num [devMid]) (by norm_num [taskA]) (by norm_num [devMid])

/-- node_score reads the device only through its position and wireless
technology. -/
theorem node_score_congr (d d' : IoTDevice)
    (hloc : d'.location = d.location)
    (htech : d'.wireless_tech = d.wireless_tech) :
    node_score d' = node_score d := by
  funext n
  unfold node_score
  rw [hloc, htech]

/-- The selection loop depends on the device only through node_score. -/
theorem select_best_go_congr (d d' : IoTDevice)
    (hscore : node_score d' = node_score d) (l : List EdgeNode) :
    ∀ acc, select_best_go d' l acc = select_best_go d l acc := by
  induction l with
  | nil => intro acc; rfl
  | cons n rest ih =>
    intro acc
    cases acc with
    | none =>
      show select_best_go d' rest (some (n, node_score d' n)) =
        select_best_go d rest (some (n, node_score d n))
      rw [hscore]
      exact ih _
    | some p =>
      obtain ⟨bn, bs⟩ := p
      show (if node_score d' n < bs then
          select_best_go d' rest (some (n, node_score d' n))
        else select_best_go d' rest (some (bn, bs))) =
        (if node_score d n < bs then
          select_best_go d rest (some (n, node_score d n))
        else select_best_go d rest (some (bn, bs)))
      rw [hscore]
      by_cases h : node_score d n < bs
      · rw [if_pos h, if_pos h]
        exact ih _
      · rw [if_neg h, if_neg h]
        exact ih _

/-- _select_best_edge_node depends on the device only through node_score. -/
theorem select_best_edge_node_congr (d d' : IoTDevice)
    (hscore : node_score d' = node_score d) (l : List EdgeNode) :
    select_best_edge_node d' l = select_best_edge_node d l := by
  unfold select_best_edge_node
  rw [select_best_go_congr d d' hscore l none]

/-- Claim C8: should_offload_task is a pure deterministic decision — it is
embedded as a function returning only the boolean because the source method
writes no field, and its value is unchanged by arbitrary rewrites of every
device and task field outside the decision snapshot (identity, counters,
mobility, lifecycle stamps), so identical snapshots give identical
results. -/
theorem c8_offload_decision_pure (d : IoTDevice) (task : Task)
    (edge_nodes : List EdgeNode) (id2 : ℕ) (ty : String) (ram2 tgr en : ℝ)
    (mob : Bool) (cen : Option ℕ) (g off pl : ℕ) (tid tty st ex : String)
    (t1 t2 : ℝ) :
    should_offload_task
      { d with device_id := id2, device_type := ty, ram := ram2,
               task_generation_rate := tgr, mobility := mob,
               connected_edge_node := cen, tasks_generated := g,
               tasks_offloaded := off, tasks_processed_locally := pl,
               energy_consumed := en }
      { task with task_id := tid, task_type := tty, status := st,
                  executed_on := ex, start_time := t1,
                  completion_time := t2 }
      edge_nodes = should_offload_task d task edge_nodes := by
  have hsel := select_best_edge_node_congr d
    { d with device_id := id2, device_type := ty, ram := ram2,
             task_generation_rate := tgr, mobility := mob,
             connected_edge_node := cen, tasks_generated := g,
             tasks_offloaded := off, tasks_processed_locally := pl,
             energy_consumed := en }
    (node_score_congr _ _ rfl rfl) edge_nodes
  unfold should_offload_task
  rw [hsel]
  rfl

end

end EdgeIoT
